import Mathlib

/-!
Verification of `thirdparty/imgui_suite/generate_gl3w.py`.

The script is a launcher: it resolves its own directory, parses an optional
`--output_directory` argument (default `<script_dir>/generated/gl3w`),
appends `<script_dir>/gl3w` to `sys.path`, creates the output directory with
`mkdir(parents=True, exist_ok=True)`, changes the working directory to it,
and imports the external generator module `gl3w_gen`.

We embed the script as a function from an environment (script location,
initial filesystem, initial working directory, failure oracles for the two
fallible external operations) and an argument vector to a run result that
carries the process state at termination, together with a trace of the
side effects in the order they were performed.
-/

namespace GenerateGl3w

/-- A POSIX path as `pathlib.PurePosixPath` stores it: an absoluteness flag
plus the list of components.  The constructor drops empty components and
single-dot components and keeps `..` components, as `PurePosixPath` does. -/
structure PyPath where
  absolute : Bool
  components : List String
deriving Repr, DecidableEq

/-- String prefix test, on the underlying character lists so that the kernel
can evaluate it. -/
def strStartsWith (s pre : String) : Bool :=
  pre.data.isPrefixOf s.data

/-- Splits a character list on a separator, keeping empty groups (the
semantics of Python's `str.split(sep)`). -/
def splitOnChar (sep : Char) (cs : List Char) : List (List Char) :=
  cs.foldr
    (fun c acc =>
      match acc with
      | [] => [[c]]
      | g :: gs => if c = sep then [] :: g :: gs else (c :: g) :: gs)
    [[]]

/-- Joins character groups with a separator character. -/
def joinWithChar (sep : Char) : List (List Char) → List Char
  | [] => []
  | [g] => g
  | g :: gs => g ++ sep :: joinWithChar sep gs

/-- `pathlib.Path(s)` on a POSIX system: absolute iff the string starts with
`/`; components are the slash-separated pieces with empty and `.` pieces
dropped. -/
def parsePath (s : String) : PyPath :=
  { absolute := strStartsWith s "/"
    components :=
      ((splitOnChar '/' s.data).map String.mk).filter (fun c => c != "" && c != ".") }

/-- `pathlib` `/` join: an absolute right operand replaces the left one,
otherwise the components are concatenated. -/
def joinPath (p q : PyPath) : PyPath :=
  if q.absolute then q else ⟨p.absolute, p.components ++ q.components⟩

/-- Joins path components with `/`. -/
def renderComponents : List String → String
  | [] => ""
  | [c] => c
  | c :: cs => c ++ "/" ++ renderComponents cs

/-- `str()` of a `PurePosixPath`. -/
def renderPath (p : PyPath) : String :=
  if p.absolute then "/" ++ renderComponents p.components
  else if p.components = [] then "."
  else renderComponents p.components

/-- Kernel-level resolution of `.` and `..` components performed by the
filesystem when a path is used in a system call (`..` at the root stays at
the root). -/
def normalizeComponents (cs : List String) : List String :=
  cs.foldl
    (fun acc c =>
      if c = "." then acc
      else if c = ".." then acc.dropLast
      else acc ++ [c]) []

/-- The absolute directory a path denotes when used from working directory
`cwd`: relative paths are interpreted against `cwd`. -/
def resolveAgainst (cwd : List String) (p : PyPath) : List String :=
  normalizeComponents (if p.absolute then p.components else cwd ++ p.components)

/-- All ancestor directories of an absolute directory, the root `[]` and the
directory itself included. -/
def ancestors (cs : List String) : List (List String) :=
  (List.range (cs.length + 1)).map (fun n => cs.take n)

/- ### The `argparse` call

`argparse.ArgumentParser()` with the single optional argument
`--output_directory` (action `store`, one value).  The parser also provides
`-h`/`--help` (exit status 0), abbreviates unambiguous long options,
accepts `--opt=value`, lets a later occurrence override an earlier one,
treats `--` as the end of the options, rejects values that look like option
strings (negative numbers excepted, since no option looks like one), and
rejects any positional or unrecognized argument with exit status 2. -/

/-- The result of `parser.parse_args(argv)`: the parsed value of
`--output_directory` (if supplied), an exit with status 0 from `-h`/`--help`,
or a usage error (exit status 2). -/
inductive ParseResult where
  | ok (dest : Option String)
  | help
  | error
deriving Repr, DecidableEq

/-- `argparse`'s negative-number pattern `^-\d+$|^-\d*\.\d+$`. -/
def isNegNumber (v : String) : Bool :=
  match v.data with
  | '-' :: body =>
      (body.length > 0 && body.all Char.isDigit) ||
        (match splitOnChar '.' body with
         | [i, f] => i.all Char.isDigit && f.length > 0 && f.all Char.isDigit
         | _ => false)
  | _ => false

/-- Whether `argparse` treats an argument string as an option string rather
than a value/positional: it starts with `-`, is not `-` alone, contains no
space, and does not look like a negative number (the parser defines no
negative-number-like option strings). -/
def looksLikeOption (v : String) : Bool :=
  strStartsWith v "-" && v != "-" && !(isNegNumber v) && !(v.data.contains ' ')

/-- Splits `--name=value` into the option name and the explicit value. -/
def eqSplit (a : String) : String × Option String :=
  match splitOnChar '=' a.data with
  | [] => (a, none)
  | [x] => (String.mk x, none)
  | x :: rest => (String.mk x, some (String.mk (joinWithChar '=' rest)))

/-- Long-option abbreviation: `a` selects `full` when it is a prefix of
`full` longer than the bare `--` (the two long options `--help` and
`--output_directory` do not share any such prefix). -/
def selectsLongOption (a full : String) : Bool :=
  a.data.length ≥ 3 && a.data.isPrefixOf full.data

/-- One left-to-right pass over the argument vector, carrying the last value
supplied for `--output_directory` and whether an unrecognized argument has
been collected (`argparse` collects unrecognized arguments and reports them
at the end, but a help action or a malformed option exits immediately). -/
def parseArgsAux : List String → Option String → Bool → ParseResult
  | [], acc, err => if err then .error else .ok acc
  | a :: rest, acc, err =>
    if a = "--" then
      if rest.isEmpty && !err then .ok acc else .error
    else if !(looksLikeOption a) then
      -- a positional argument: the parser defines none, so it is collected
      -- as unrecognized and reported at the end
      parseArgsAux rest acc true
    else
      let (name, explicit) := eqSplit a
      if name = "-h" || selectsLongOption name "--help" then
        match explicit with
        | some _ => .error   -- "ignored explicit argument": immediate error
        | none => .help
      else if selectsLongOption name "--output_directory" then
        match explicit with
        | some v => parseArgsAux rest (some v) err
        | none =>
          match rest with
          | [] => .error     -- "expected one argument": immediate error
          | v :: rest2 =>
            if looksLikeOption v then .error
            else parseArgsAux rest2 (some v) err
      else
        -- an unrecognized option string: collected, reported at the end
        parseArgsAux rest acc true

/-- `parser.parse_args(argv)`. -/
def parseArgs (argv : List String) : ParseResult :=
  parseArgsAux argv none false

/- ### Process state and launcher run -/

/-- A side effect performed by the launcher, in program order. -/
inductive Event where
  | appendSysPath (entry : String)
  | mkdirParents (target : PyPath)
  | chdir (target : PyPath)
  | importModule (name : String)
deriving Repr, DecidableEq

/-- Observable process state: the set of existing directories and files
(absolute component lists), the current working directory, the module
search path, and the trace of side effects performed so far. -/
structure State where
  dirs : List (List String)
  files : List (List String)
  cwd : List String
  sysPath : List String
  events : List Event
deriving Repr, DecidableEq

/-- The run environment: the script's own resolved directory (absolute,
symlink-free, as `Path(__file__).resolve().parent` yields), the initial
filesystem and process state, and oracles for the two operations that can
fail for external reasons: directory creation (permissions, invalid path)
and the import of the external `gl3w_gen` module (missing, or raising
during load). -/
structure Env where
  scriptDir : List String
  initDirs : List (List String)
  initFiles : List (List String)
  initCwd : List String
  initSysPath : List String
  mkdirPermError : Bool
  importRaises : Bool
deriving Repr, DecidableEq

/-- The state at process start: nothing has happened yet. -/
def Env.initState (env : Env) : State :=
  ⟨env.initDirs, env.initFiles, env.initCwd, env.initSysPath, []⟩

/-- `dirname / "generated/gl3w"`: the default output directory. -/
def defaultDest (env : Env) : PyPath :=
  joinPath ⟨true, env.scriptDir⟩ (parsePath "generated/gl3w")

/-- The output directory the run uses: the parsed `--output_directory` value
(passed through `type=Path`), or the default when absent. -/
def resolveDest (env : Env) : Option String → PyPath
  | none => defaultDest env
  | some s => parsePath s

/-- `dirname / "gl3w"`: the sibling directory appended to `sys.path`. -/
def gl3wSibling (env : Env) : PyPath :=
  joinPath ⟨true, env.scriptDir⟩ (parsePath "gl3w")

/-- `mkdir(parents=True, exist_ok=True)`: every missing ancestor of the
target is created; existing directories and all files are untouched. -/
def mkdirParentsExistOk (st : State) (target : List String) : State :=
  { st with dirs := st.dirs ++ (ancestors target).filter (fun d => !st.dirs.contains d) }

/-- Outcome of one launcher run, carrying the state at termination.
`usageError` exits with status 2; `helpExit` with status 0; `fsError` and
`importFailure` are the uncaught exceptions (nonzero exit). -/
inductive RunResult where
  | usageError (st : State)
  | helpExit (st : State)
  | fsError (st : State)
  | importFailure (st : State)
  | ok (st : State)
deriving Repr, DecidableEq

/-- `main(argv)`: parse the arguments, append `str(dirname / "gl3w")` to
`sys.path`, create the output directory (parents included, existing ones
tolerated), change the working directory to it, and import `gl3w_gen` —
in exactly that order, stopping at the first failure. -/
def runLauncher (env : Env) (argv : List String) : RunResult :=
  let st0 := env.initState
  match parseArgs argv with
  | .error => .usageError st0
  | .help => .helpExit st0
  | .ok destArg =>
    let dest := resolveDest env destArg
    -- sys.path.append(str(dirname / "gl3w"))
    let st1 : State :=
      { st0 with
        sysPath := st0.sysPath ++ [renderPath (gl3wSibling env)]
        events := st0.events ++ [.appendSysPath (renderPath (gl3wSibling env))] }
    -- args.output_directory.mkdir(parents=True, exist_ok=True)
    let target := resolveAgainst st1.cwd dest
    let stM : State := { st1 with events := st1.events ++ [.mkdirParents dest] }
    if env.mkdirPermError && !((ancestors target).all (fun d => stM.dirs.contains d)) then
      .fsError stM
    else
      let st2 := mkdirParentsExistOk stM target
      -- os.chdir(args.output_directory)
      let st3 : State :=
        { st2 with
          cwd := resolveAgainst st2.cwd dest
          events := st2.events ++ [.chdir dest] }
      -- import gl3w_gen
      if env.importRaises then .importFailure st3
      else .ok { st3 with events := st3.events ++ [.importModule "gl3w_gen"] }

/-- The process exit status of a run. -/
def exitCode : RunResult → Nat
  | .usageError _ => 2
  | .helpExit _ => 0
  | .fsError _ => 1
  | .importFailure _ => 1
  | .ok _ => 0

/-- The state at process termination. -/
def finalState : RunResult → State
  | .usageError st => st
  | .helpExit st => st
  | .fsError st => st
  | .importFailure st => st
  | .ok st => st

/-- The `sys.path` entry the launcher appends: `str(dirname / "gl3w")`. -/
def sysEntry (env : Env) : String := renderPath (gl3wSibling env)

/-- The absolute directory the run's output directory denotes, interpreted
from the initial working directory (the working directory at the time of
both the `mkdir` and the `chdir` call). -/
def destTarget (env : Env) (d : Option String) : List String :=
  resolveAgainst env.initCwd (resolveDest env d)

/-- The process state right after the `chdir` call, for a run whose argument
vector parsed to `d` and whose directory creation succeeded. -/
def postChdirState (env : Env) (d : Option String) : State :=
  { dirs := env.initDirs ++
      (ancestors (destTarget env d)).filter (fun x => !env.initDirs.contains x)
    files := env.initFiles
    cwd := destTarget env d
    sysPath := env.initSysPath ++ [sysEntry env]
    events := [.appendSysPath (sysEntry env), .mkdirParents (resolveDest env d),
               .chdir (resolveDest env d)] }

/-- The process state at the end of a fully successful run. -/
def importedState (env : Env) (d : Option String) : State :=
  { postChdirState env d with
    events := (postChdirState env d).events ++ [.importModule "gl3w_gen"] }

/- ### Basic lemmas about the run -/

theorem self_mem_ancestors (cs : List String) : cs ∈ ancestors cs := by
  unfold ancestors
  refine List.mem_map.2 ⟨cs.length, ?_, List.take_length cs⟩
  simp [List.mem_range]

theorem mem_append_missing {l : List (List String)} {t a : List String}
    (ha : a ∈ ancestors t) :
    a ∈ l ++ (ancestors t).filter (fun x => !l.contains x) := by
  by_cases h : a ∈ l
  · exact List.mem_append_left _ h
  · refine List.mem_append_right _ (List.mem_filter.2 ⟨ha, ?_⟩)
    simpa using h

/-- Normal form of a run whose argument vector parses successfully and whose
directory creation does not fail. -/
theorem run_parse_ok (env : Env) (argv : List String) (d : Option String)
    (hp : parseArgs argv = .ok d)
    (hc : (env.mkdirPermError &&
      !((ancestors (destTarget env d)).all (fun x => env.initDirs.contains x))) = false) :
    runLauncher env argv =
      if env.importRaises then .importFailure (postChdirState env d)
      else .ok (importedState env d) := by
  unfold runLauncher
  rw [hp]
  simp only [Env.initState, destTarget] at hc ⊢
  have hall : env.mkdirPermError = true →
      ∀ x ∈ ancestors (resolveAgainst env.initCwd (resolveDest env d)),
        x ∈ env.initDirs := by
    intro hperm x hx
    rw [hperm] at hc
    simp at hc
    exact hc x hx
  by_cases hi : env.importRaises <;>
    simp [hi, postChdirState, importedState, destTarget, sysEntry,
      mkdirParentsExistOk, Env.initState]
  all_goals exact hall

/-- The final state of such a run. -/
theorem finalState_parse_ok (env : Env) (argv : List String) (d : Option String)
    (hp : parseArgs argv = .ok d)
    (hc : (env.mkdirPermError &&
      !((ancestors (destTarget env d)).all (fun x => env.initDirs.contains x))) = false) :
    finalState (runLauncher env argv) =
      if env.importRaises then postChdirState env d else importedState env d := by
  rw [run_parse_ok env argv d hp hc]
  by_cases hi : env.importRaises <;> simp [hi, finalState]

theorem finalState_dirs (env : Env) (argv : List String) (d : Option String)
    (hp : parseArgs argv = .ok d)
    (hc : (env.mkdirPermError &&
      !((ancestors (destTarget env d)).all (fun x => env.initDirs.contains x))) = false) :
    (finalState (runLauncher env argv)).dirs =
      env.initDirs ++
        (ancestors (destTarget env d)).filter (fun x => !env.initDirs.contains x) := by
  rw [finalState_parse_ok env argv d hp hc]
  by_cases hi : env.importRaises <;> simp [hi, importedState, postChdirState]

theorem finalState_files (env : Env) (argv : List String) (d : Option String)
    (hp : parseArgs argv = .ok d)
    (hc : (env.mkdirPermError &&
      !((ancestors (destTarget env d)).all (fun x => env.initDirs.contains x))) = false) :
    (finalState (runLauncher env argv)).files = env.initFiles := by
  rw [finalState_parse_ok env argv d hp hc]
  by_cases hi : env.importRaises <;> simp [hi, importedState, postChdirState]

theorem finalState_cwd (env : Env) (argv : List String) (d : Option String)
    (hp : parseArgs argv = .ok d)
    (hc : (env.mkdirPermError &&
      !((ancestors (destTarget env d)).all (fun x => env.initDirs.contains x))) = false) :
    (finalState (runLauncher env argv)).cwd = destTarget env d := by
  rw [finalState_parse_ok env argv d hp hc]
  by_cases hi : env.importRaises <;> simp [hi, importedState, postChdirState]

theorem finalState_events (env : Env) (argv : List String) (d : Option String)
    (hp : parseArgs argv = .ok d)
    (hc : (env.mkdirPermError &&
      !((ancestors (destTarget env d)).all (fun x => env.initDirs.contains x))) = false) :
    (finalState (runLauncher env argv)).events =
      [.appendSysPath (sysEntry env), .mkdirParents (resolveDest env d),
       .chdir (resolveDest env d)] ++
        (if env.importRaises then [] else [.importModule "gl3w_gen"]) := by
  rw [finalState_parse_ok env argv d hp hc]
  by_cases hi : env.importRaises <;> simp [hi, importedState, postChdirState]

theorem exitCode_parse_ok (env : Env) (argv : List String) (d : Option String)
    (hp : parseArgs argv = .ok d)
    (hc : (env.mkdirPermError &&
      !((ancestors (destTarget env d)).all (fun x => env.initDirs.contains x))) = false) :
    exitCode (runLauncher env argv) = if env.importRaises then 1 else 0 := by
  rw [run_parse_ok env argv d hp hc]
  by_cases hi : env.importRaises <;> simp [hi, exitCode]

/-- Whatever the outcome after a successful parse, the directory-creation
call on the resolved destination appears in the side-effect trace. -/
theorem mkdir_event_mem (env : Env) (argv : List String) (d : Option String)
    (hp : parseArgs argv = .ok d) :
    Event.mkdirParents (resolveDest env d) ∈
      (finalState (runLauncher env argv)).events := by
  unfold runLauncher
  rw [hp]
  simp only [Env.initState]
  split
  · simp [finalState]
  · split <;> simp [finalState, mkdirParentsExistOk]

/-- The state at a directory-creation failure: the `sys.path` append has
happened, the `mkdir` call was made, nothing else. -/
def fsErrorState (env : Env) (d : Option String) : State :=
  { dirs := env.initDirs
    files := env.initFiles
    cwd := env.initCwd
    sysPath := env.initSysPath ++ [sysEntry env]
    events := [.appendSysPath (sysEntry env), .mkdirParents (resolveDest env d)] }

/-- Normal form of a run whose argument vector parses successfully and whose
directory creation fails. -/
theorem run_mkdir_fails (env : Env) (argv : List String) (d : Option String)
    (hp : parseArgs argv = .ok d)
    (hc : (env.mkdirPermError &&
      !((ancestors (destTarget env d)).all (fun x => env.initDirs.contains x))) = true) :
    runLauncher env argv = .fsError (fsErrorState env d) := by
  have hperm : env.mkdirPermError = true := by
    cases hmp : env.mkdirPermError
    · rw [hmp] at hc; simp at hc
    · rfl
  have hmiss : ¬ ∀ x ∈ ancestors (destTarget env d), x ∈ env.initDirs := by
    intro hall
    rw [hperm] at hc
    simp at hc
    obtain ⟨x, hx, hnx⟩ := hc
    exact hnx (hall x hx)
  unfold runLauncher
  rw [hp]
  simp only [Env.initState, destTarget] at hmiss ⊢
  simp [hperm, hmiss, fsErrorState, sysEntry, destTarget]

/- ### Sample environments used to instantiate the theorems -/

/-- A concrete environment: a checkout at `/repo`, the script in
`/repo/thirdparty/imgui_suite`, the process started from `/repo`, both
external operations succeeding. -/
def sampleEnv : Env :=
  { scriptDir := ["repo", "thirdparty", "imgui_suite"]
    initDirs := [[], ["repo"], ["repo", "thirdparty"],
                 ["repo", "thirdparty", "imgui_suite"]]
    initFiles := [["repo", "thirdparty", "imgui_suite", "generate_gl3w.py"]]
    initCwd := ["repo"]
    initSysPath := []
    mkdirPermError := false
    importRaises := false }

/-- The same checkout invoked from a different working directory. -/
def sampleEnvElsewhere : Env :=
  { sampleEnv with
    initCwd := ["elsewhere"]
    initDirs := sampleEnv.initDirs ++ [["elsewhere"]] }

/-- The same checkout with the external generator module missing. -/
def sampleEnvNoGen : Env := { sampleEnv with importRaises := true }

/- ### The claims -/

/-- C1: in every run whose arguments parse (so the creation step is reached)
and where the filesystem does not refuse creation, the resolved destination
directory and every one of its parent directories exist after the run —
whether or not they existed before. -/
theorem C1_creates_dest_and_all_parents (env : Env) (argv : List String)
    (d : Option String) (a : List String)
    (hp : parseArgs argv = .ok d) (hm : env.mkdirPermError = false)
    (ha : a ∈ ancestors (destTarget env d)) :
    a ∈ (finalState (runLauncher env argv)).dirs := by
  rw [finalState_dirs env argv d hp (by simp [hm])]
  exact mem_append_missing ha

theorem C1_witness :
    ["repo", "thirdparty", "imgui_suite", "generated", "gl3w"] ∈
      (finalState (runLauncher sampleEnv [])).dirs :=
  C1_creates_dest_and_all_parents sampleEnv [] none _ (by decide) rfl (by decide)

/-- C2: in every run that reaches the generator import (arguments parsed,
creation permitted), the working directory at the moment of the import is
the resolved destination — the default or the supplied value — interpreted
against the invocation-time working directory. -/
theorem C2_cwd_at_import_is_dest (env : Env) (argv : List String)
    (d : Option String)
    (hp : parseArgs argv = .ok d) (hm : env.mkdirPermError = false) :
    (finalState (runLauncher env argv)).cwd =
      resolveAgainst env.initCwd (resolveDest env d) := by
  rw [finalState_cwd env argv d hp (by simp [hm])]
  rfl

theorem C2_witness :
    (finalState (runLauncher sampleEnv ["--output_directory", "/tmp/out"])).cwd =
      resolveAgainst sampleEnv.initCwd (resolveDest sampleEnv (some "/tmp/out")) :=
  C2_cwd_at_import_is_dest sampleEnv _ (some "/tmp/out") (by decide) rfl

/-- C3: when no `--output_directory` is supplied, the resolved destination
is the fixed path `<script_dir>/generated/gl3w` under the script's own
resolved directory, and that path is the one the creation step is invoked
on. -/
theorem C3_default_is_script_relative (env : Env) (argv : List String)
    (hp : parseArgs argv = .ok none) :
    resolveDest env none = ⟨true, env.scriptDir ++ ["generated", "gl3w"]⟩ ∧
    Event.mkdirParents ⟨true, env.scriptDir ++ ["generated", "gl3w"]⟩ ∈
      (finalState (runLauncher env argv)).events := by
  have h1 : resolveDest env none = ⟨true, env.scriptDir ++ ["generated", "gl3w"]⟩ := by
    show joinPath ⟨true, env.scriptDir⟩ (parsePath "generated/gl3w") = _
    have h2 : parsePath "generated/gl3w" = ⟨false, ["generated", "gl3w"]⟩ := by decide
    rw [h2, joinPath]
    simp
  exact ⟨h1, h1 ▸ mkdir_event_mem env argv none hp⟩

theorem C3_witness :
    resolveDest sampleEnv none =
      ⟨true, sampleEnv.scriptDir ++ ["generated", "gl3w"]⟩ ∧
    Event.mkdirParents ⟨true, sampleEnv.scriptDir ++ ["generated", "gl3w"]⟩ ∈
      (finalState (runLauncher sampleEnv [])).events :=
  C3_default_is_script_relative sampleEnv [] (by decide)

/-- C4: a supplied `--output_directory` value is used exactly as given: the
path handed to both the creation call and the working-directory change is
precisely the parse of the supplied string, with no further normalization
by the launcher. -/
theorem C4_supplied_value_used_verbatim (env : Env) (argv : List String)
    (s : String)
    (hp : parseArgs argv = .ok (some s)) (hm : env.mkdirPermError = false) :
    Event.mkdirParents (parsePath s) ∈ (finalState (runLauncher env argv)).events ∧
    Event.chdir (parsePath s) ∈ (finalState (runLauncher env argv)).events := by
  rw [finalState_events env argv (some s) hp (by simp [hm])]
  by_cases hi : env.importRaises <;> simp [hi, resolveDest]

theorem C4_witness :
    Event.mkdirParents (parsePath "a/../b") ∈
      (finalState (runLauncher sampleEnv ["--output_directory", "a/../b"])).events ∧
    Event.chdir (parsePath "a/../b") ∈
      (finalState (runLauncher sampleEnv ["--output_directory", "a/../b"])).events :=
  C4_supplied_value_used_verbatim sampleEnv _ "a/../b" (by decide) rfl

/-- Recognizes the `sys.path`-append event in a trace. -/
def isAppendEvent : Event → Bool
  | .appendSysPath _ => true
  | _ => false

/-- Recognizes the directory-creation event in a trace. -/
def isMkdirEvent : Event → Bool
  | .mkdirParents _ => true
  | _ => false

/-- C5 counterexample: in a concrete, fully successful run (default
arguments, fresh checkout) the `sys.path` extension is performed strictly
before the directory creation, so the claimed order — creation first, the
search-path extension never before it — is false on the code. -/
theorem C5_counterexample :
    (finalState (runLauncher sampleEnv [])).events.findIdx isAppendEvent <
      (finalState (runLauncher sampleEnv [])).events.findIdx isMkdirEvent := by
  decide

/-- C5 as amended: the launcher performs its side effects in source order —
the search-path extension first, then directory creation, then the
working-directory change, and the generator import last; in particular
directory creation still precedes the working-directory change and the
import. -/
theorem C5_amended_event_order (env : Env) (argv : List String)
    (d : Option String)
    (hp : parseArgs argv = .ok d) (hm : env.mkdirPermError = false)
    (hi : env.importRaises = false) :
    (finalState (runLauncher env argv)).events =
      [.appendSysPath (sysEntry env), .mkdirParents (resolveDest env d),
       .chdir (resolveDest env d), .importModule "gl3w_gen"] := by
  rw [finalState_events env argv d hp (by simp [hm])]
  simp [hi]

theorem C5_amended_witness :
    (finalState (runLauncher sampleEnv [])).events =
      [.appendSysPath (sysEntry sampleEnv),
       .mkdirParents (resolveDest sampleEnv none),
       .chdir (resolveDest sampleEnv none), .importModule "gl3w_gen"] :=
  C5_amended_event_order sampleEnv [] none (by decide) rfl rfl

/-- C6: when the destination directory already exists (all its ancestors
are present), the creation step cannot fail, and the filesystem reaching
the generator is exactly the initial one: no directory added, no file
touched. -/
theorem C6_existing_dest_untouched (env : Env) (argv : List String)
    (d : Option String)
    (hp : parseArgs argv = .ok d)
    (hex : ∀ a ∈ ancestors (destTarget env d), a ∈ env.initDirs) :
    (∀ st, runLauncher env argv ≠ .fsError st) ∧
    (finalState (runLauncher env argv)).dirs = env.initDirs ∧
    (finalState (runLauncher env argv)).files = env.initFiles := by
  have hall : ((ancestors (destTarget env d)).all
      (fun x => env.initDirs.contains x)) = true := by
    rw [List.all_eq_true]
    intro x hx
    simpa using hex x hx
  have hc : (env.mkdirPermError &&
      !((ancestors (destTarget env d)).all (fun x => env.initDirs.contains x))) = false := by
    rw [hall]
    simp
  refine ⟨?_, ?_, finalState_files env argv d hp hc⟩
  · intro st h
    rw [run_parse_ok env argv d hp hc] at h
    by_cases hi : env.importRaises <;> simp [hi] at h
  · rw [finalState_dirs env argv d hp hc]
    have hnil : (ancestors (destTarget env d)).filter
        (fun x => !env.initDirs.contains x) = [] := by
      rw [List.filter_eq_nil_iff]
      intro a ha
      simp [hex a ha]
    rw [hnil, List.append_nil]

theorem C6_witness :
    (finalState (runLauncher sampleEnv ["--output_directory", "/repo/thirdparty"])).dirs =
      sampleEnv.initDirs ∧
    (finalState (runLauncher sampleEnv ["--output_directory", "/repo/thirdparty"])).files =
      sampleEnv.initFiles :=
  (C6_existing_dest_untouched sampleEnv _ (some "/repo/thirdparty") (by decide)
    (by decide)).2

/-- C7: every failure is fatal and nothing is rolled back: a
directory-creation failure and a generator-import failure both end the
process with nonzero status, and at an import failure every directory the
creation step produced — the destination and its ancestors — is still on
the filesystem. -/
theorem C7_failures_fatal_no_rollback (env : Env) (argv : List String)
    (d : Option String) (hp : parseArgs argv = .ok d) :
    (∀ st, runLauncher env argv = .fsError st →
      exitCode (runLauncher env argv) ≠ 0) ∧
    (∀ st, runLauncher env argv = .importFailure st →
      exitCode (runLauncher env argv) ≠ 0 ∧
      ∀ a ∈ ancestors (destTarget env d), a ∈ st.dirs) := by
  constructor
  · intro st h
    rw [h]
    simp [exitCode]
  · intro st h
    by_cases hcond : (env.mkdirPermError &&
        !((ancestors (destTarget env d)).all (fun x => env.initDirs.contains x))) = false
    · rw [run_parse_ok env argv d hp hcond] at h
      by_cases hi : env.importRaises
      · rw [hi] at h
        simp only [if_true] at h
        have hst : postChdirState env d = st := by
          injection h
        refine ⟨?_, ?_⟩
        · rw [run_parse_ok env argv d hp hcond, hi]
          simp [exitCode]
        · intro a ha
          rw [← hst]
          exact mem_append_missing ha
      · simp [hi] at h
    · have hcond' : (env.mkdirPermError &&
          !((ancestors (destTarget env d)).all (fun x => env.initDirs.contains x))) = true := by
        revert hcond
        cases env.mkdirPermError &&
          !((ancestors (destTarget env d)).all (fun x => env.initDirs.contains x)) <;> simp
      rw [run_mkdir_fails env argv d hp hcond'] at h
      cases h

theorem C7_witness :
    exitCode (runLauncher sampleEnvNoGen []) ≠ 0 ∧
    ["repo", "thirdparty", "imgui_suite", "generated", "gl3w"] ∈
      (finalState (runLauncher sampleEnvNoGen [])).dirs := by
  have h := (C7_failures_fatal_no_rollback sampleEnvNoGen [] none (by decide)).2
    (finalState (runLauncher sampleEnvNoGen [])) (by decide)
  exact ⟨h.1, h.2 _ (by decide)⟩

/-- C8: a rejected argument vector (unrecognized option, extra positional,
malformed option) terminates the process with nonzero status before any
side effect: the state at termination is the initial state — no directory
created, working directory and module search path unchanged, empty
side-effect trace. -/
theorem C8_usage_error_no_side_effects (env : Env) (argv : List String)
    (hp : parseArgs argv = .error) :
    exitCode (runLauncher env argv) ≠ 0 ∧
    finalState (runLauncher env argv) = env.initState := by
  unfold runLauncher
  rw [hp]
  exact ⟨by simp [exitCode], rfl⟩

theorem C8_witness :
    exitCode (runLauncher sampleEnv ["--bogus_option", "x"]) ≠ 0 ∧
    finalState (runLauncher sampleEnv ["--bogus_option", "x"]) =
      sampleEnv.initState :=
  C8_usage_error_no_side_effects sampleEnv _ (by decide)

/-- C9: a relative supplied destination is interpreted against the
invocation-time working directory by the creation call and by the
working-directory change alike — the creation happens before the change,
so the directory entered is exactly the directory just created, and it
exists at that moment. -/
theorem C9_relative_dest_created_then_entered (env : Env) (argv : List String)
    (s : String)
    (hp : parseArgs argv = .ok (some s))
    (hrel : (parsePath s).absolute = false) (hm : env.mkdirPermError = false) :
    (finalState (runLauncher env argv)).cwd =
      normalizeComponents (env.initCwd ++ (parsePath s).components) ∧
    (finalState (runLauncher env argv)).cwd ∈
      (finalState (runLauncher env argv)).dirs := by
  have hcwd := finalState_cwd env argv (some s) hp (by simp [hm])
  constructor
  · rw [hcwd]
    simp [destTarget, resolveDest, resolveAgainst, hrel]
  · rw [hcwd, finalState_dirs env argv (some s) hp (by simp [hm])]
    exact mem_append_missing (self_mem_ancestors _)

theorem C9_witness :
    (finalState (runLauncher sampleEnv ["--output_directory", "build/gl3w"])).cwd =
      normalizeComponents (sampleEnv.initCwd ++ (parsePath "build/gl3w").components) ∧
    (finalState (runLauncher sampleEnv ["--output_directory", "build/gl3w"])).cwd ∈
      (finalState (runLauncher sampleEnv ["--output_directory", "build/gl3w"])).dirs :=
  C9_relative_dest_created_then_entered sampleEnv _ "build/gl3w" (by decide)
    (by decide) rfl

/-- C10: the default destination does not depend on the invocation-time
working directory: two runs with no `--output_directory`, in environments
agreeing on the script's resolved location, resolve the same absolute
destination and end in the same working directory. -/
theorem C10_default_independent_of_cwd (e₁ e₂ : Env)
    (argv₁ argv₂ : List String)
    (hs : e₁.scriptDir = e₂.scriptDir)
    (hp₁ : parseArgs argv₁ = .ok none) (hp₂ : parseArgs argv₂ = .ok none)
    (hm₁ : e₁.mkdirPermError = false) (hm₂ : e₂.mkdirPermError = false) :
    resolveDest e₁ none = resolveDest e₂ none ∧
    (resolveDest e₁ none).absolute = true ∧
    (finalState (runLauncher e₁ argv₁)).cwd =
      (finalState (runLauncher e₂ argv₂)).cwd := by
  have hd : ∀ e : Env,
      resolveDest e none = ⟨true, e.scriptDir ++ ["generated", "gl3w"]⟩ := by
    intro e
    show joinPath ⟨true, e.scriptDir⟩ (parsePath "generated/gl3w") = _
    have h2 : parsePath "generated/gl3w" = ⟨false, ["generated", "gl3w"]⟩ := by decide
    rw [h2, joinPath]
    simp
  refine ⟨by rw [hd e₁, hd e₂, hs], by rw [hd e₁], ?_⟩
  rw [finalState_cwd e₁ argv₁ none hp₁ (by simp [hm₁]),
      finalState_cwd e₂ argv₂ none hp₂ (by simp [hm₂])]
  unfold destTarget
  rw [hd e₁, hd e₂, hs]
  simp [resolveAgainst]

theorem C10_witness :
    resolveDest sampleEnv none = resolveDest sampleEnvElsewhere none ∧
    (resolveDest sampleEnv none).absolute = true ∧
    (finalState (runLauncher sampleEnv [])).cwd =
      (finalState (runLauncher sampleEnvElsewhere [])).cwd :=
  C10_default_independent_of_cwd sampleEnv sampleEnvElsewhere [] [] rfl
    (by decide) (by decide) rfl rfl

end GenerateGl3w
